import Mathlib

/-
Verification of the AI connection admission-control subsystem of the
meet-ai repository: the aiConnectionLocks table, the in-memory rate
limiter, the connection tracker (src/lib/ai-connection-tracker.ts), the
AISingletonGuard (modelled from the singleton-guard module), and the
triggerAI admission path (src/modules/meetings/server/procedures.ts).

Timestamps are milliseconds since the epoch, modelled as Int (JavaScript
Date.now values). Each database call takes an explicit Bool flag that
says whether the underlying store throws on that call, so fail-open and
fail-closed behaviour of the try/catch blocks in the source is visible
in the model.
-/

namespace MeetAI

/-- Row of the aiConnectionLocks table, as read back by the tracker
(AIConnectionState in ai-connection-tracker.ts plus the updatedAt column
written by the tracker). -/
structure AIConnectionLock where
  meetingId : String
  agentId : String
  isInProgress : Bool
  createdAt : Int
  updatedAt : Int
deriving Repr, DecidableEq

/-- The aiConnectionLocks table: a list of rows. The schema declares
meetingId as the primary key (the insert in markConnectionInProgress is
documented in the source to fail on the primary-key constraint when a
row already exists), so the store itself rejects a second row per key. -/
abbrev LockTable := List AIConnectionLock

/-- select ... where meetingId = mid limit 1, as an Option. -/
def lookupLock (t : LockTable) (mid : String) : Option AIConnectionLock :=
  t.find? (fun r => r.meetingId == mid)

/-- A storage-level failure of a database call. -/
inductive DbError where
  | dbError
deriving Repr, DecidableEq

/-- db.select().from(aiConnectionLocks).where(eq(meetingId, mid)).limit(1);
the err flag models the call throwing. -/
def dbSelectLock (err : Bool) (t : LockTable) (mid : String) :
    Except DbError (Option AIConnectionLock) :=
  if err then .error .dbError else .ok (lookupLock t mid)

/-- db.insert(aiConnectionLocks).values(r): the primary-key constraint on
meetingId makes the insert throw when a row for the key already exists;
the err flag models an additional storage failure. -/
def dbInsertLock (err : Bool) (t : LockTable) (r : AIConnectionLock) :
    Except DbError LockTable :=
  if err then .error .dbError
  else if (lookupLock t r.meetingId).isSome then .error .dbError
  else .ok (t ++ [r])

/-- db.update(aiConnectionLocks).set(isInProgress false, updatedAt now)
.where(eq(meetingId, mid)). -/
def dbUpdateLockCompleted (err : Bool) (t : LockTable) (mid : String) (now : Int) :
    Except DbError LockTable :=
  if err then .error .dbError
  else .ok (t.map fun r =>
    if r.meetingId == mid then
      { r with isInProgress := false, updatedAt := now }
    else r)

/-- db.delete(aiConnectionLocks).where(eq(meetingId, mid)). -/
def dbDeleteLock (err : Bool) (t : LockTable) (mid : String) :
    Except DbError LockTable :=
  if err then .error .dbError
  else .ok (t.filter fun r => r.meetingId != mid)

/-- db.delete(aiConnectionLocks).where(lt(createdAt, cutoff)).returning():
remaining table and the deleted rows. -/
def dbDeleteOldLocks (err : Bool) (t : LockTable) (cutoff : Int) :
    Except DbError (LockTable × List AIConnectionLock) :=
  if err then .error .dbError
  else .ok (t.filter (fun r => !decide (r.createdAt < cutoff)),
            t.filter (fun r => decide (r.createdAt < cutoff)))

/-! ### Rate limiter (recentAttempts map and checkRateLimit) -/

/-- The process-local recentAttempts map: meetingId to last-attempt
timestamp, as an association list in insertion order. -/
abbrev RateMap := List (String × Int)

/-- recentAttempts.get(mid). -/
def rateGet (m : RateMap) (mid : String) : Option Int :=
  (m.find? (fun e => e.fst == mid)).map Prod.snd

/-- recentAttempts.set(mid, v): update in place when present, else append
(JavaScript Map semantics). -/
def rateSet (m : RateMap) (mid : String) (v : Int) : RateMap :=
  if (m.find? (fun e => e.fst == mid)).isSome then
    m.map (fun e => if e.fst == mid then (mid, v) else e)
  else m ++ [(mid, v)]

/-- checkRateLimit (ai-connection-tracker.ts lines 19-39). Returns the
boolean result and the updated recentAttempts map. The source condition
is lastAttempt && (now - lastAttempt) < 5000, so a recorded timestamp of
exactly 0 is falsy in JavaScript and does not rate-limit; the model
keeps that truthiness. On the allowing path the current time is recorded
for the key and every entry older than 30000 ms is purged. -/
def checkRateLimit (now : Int) (m : RateMap) (mid : String) : Bool × RateMap :=
  let lastAttempt := rateGet m mid
  let hit : Bool :=
    match lastAttempt with
    | some t => t != 0 && decide (now - t < 5000)
    | none => false
  if hit then (false, m)
  else
    let m1 := rateSet m mid now
    (true, m1.filter (fun e => !decide (now - e.snd > 30000)))

/-! ### Connection tracker (ai-connection-tracker.ts) -/

/-- getConnectionState (lines 42-62): select the row for the meeting;
the catch block returns null, so a store error is reported as absence. -/
def getConnectionState (err : Bool) (t : LockTable) (mid : String) :
    Option AIConnectionLock :=
  match dbSelectLock err t mid with
  | .ok r => r
  | .error _ => none

/-- markConnectionInProgress (lines 65-97): rate-limit check first, then
a single atomic insert; any insert failure (duplicate key or storage
error) is caught and reported as false. Returns the boolean result, the
updated rate map and the updated table. -/
def markConnectionInProgress (now : Int) (err : Bool) (mid agentId : String)
    (rm : RateMap) (t : LockTable) : Bool × RateMap × LockTable :=
  match checkRateLimit now rm mid with
  | (false, rm1) => (false, rm1, t)
  | (true, rm1) =>
    match dbInsertLock err t ⟨mid, agentId, true, now, now⟩ with
    | .ok t1 => (true, rm1, t1)
    | .error _ => (false, rm1, t)

/-- markConnectionCompleted (lines 100-114): update the row to
isInProgress false; the catch block logs and resolves normally, so the
caller-visible result is success in every case. -/
def markConnectionCompleted (now : Int) (err : Bool) (mid : String)
    (t : LockTable) : Except DbError Unit × LockTable :=
  match dbUpdateLockCompleted err t mid now with
  | .ok t1 => (.ok (), t1)
  | .error _ => (.ok (), t)

/-- cleanupConnection (lines 117-127): delete the row for the meeting;
the catch block logs and resolves normally. -/
def cleanupConnection (err : Bool) (mid : String) (t : LockTable) :
    Except DbError Unit × LockTable :=
  match dbDeleteLock err t mid with
  | .ok t1 => (.ok (), t1)
  | .error _ => (.ok (), t)

/-- cleanupOldConnections (lines 130-145): delete every row with
createdAt older than a fixed five minutes (300000 ms); the number of
deleted rows is only logged, the function resolves with no value, and
the catch block swallows storage errors. -/
def cleanupOldConnections (now : Int) (err : Bool) (t : LockTable) :
    Except DbError Unit × LockTable :=
  match dbDeleteOldLocks err t (now - 300000) with
  | .ok (t1, _deleted) => (.ok (), t1)
  | .error _ => (.ok (), t)

/-- sweepExpired per the specification text (section 4.1): deletes every
ticket with issuedAt older than maxAge regardless of state and returns
the number removed. Written from the words of the spec, to be compared
with cleanupOldConnections. -/
def sweepExpired (now maxAge : Int) (t : LockTable) : Nat × LockTable :=
  ((t.filter (fun r => decide (r.createdAt < now - maxAge))).length,
   t.filter (fun r => !decide (r.createdAt < now - maxAge)))

/-! ### AISingletonGuard (the singleton-guard module) -/

/-- The state visible to one process instance: the static in-memory
instances map of AISingletonGuard (a set of meeting ids) together with
the shared aiConnectionLocks table. -/
structure GuardState where
  instances : List String
  locks : LockTable
deriving Repr, DecidableEq

/-- AISingletonGuard.isLocked: the in-memory check only. -/
def isLocked (g : GuardState) (mid : String) : Bool :=
  g.instances.contains mid

/-- AISingletonGuard.checkAndLock: in-memory check, then a database
select, then an insert; the whole database part is wrapped in one
try/catch whose handler returns false, so a thrown select or insert
(including the duplicate-key failure of the insert) yields false. The
in-memory entry is recorded only after a successful insert. selErr and
insErr model storage failures of the two calls. -/
def checkAndLock (now : Int) (selErr insErr : Bool) (mid agentId : String)
    (g : GuardState) : Bool × GuardState :=
  if isLocked g mid then (false, g)
  else
    match dbSelectLock selErr g.locks mid with
    | .error _ => (false, g)
    | .ok (some _) => (false, g)
    | .ok none =>
      match dbInsertLock insErr g.locks ⟨mid, agentId, true, now, now⟩ with
      | .error _ => (false, g)
      | .ok t1 => (true, { instances := g.instances ++ [mid], locks := t1 })

/-- AISingletonGuard.release: the in-memory entry is deleted before the
try block, so it is removed even when the database delete throws; the
catch block logs and resolves normally. -/
def guardRelease (err : Bool) (mid : String) (g : GuardState) :
    Except DbError Unit × GuardState :=
  let g1 : GuardState := { g with instances := g.instances.filter (fun k => k != mid) }
  match dbDeleteLock err g1.locks mid with
  | .ok t1 => (.ok (), { g1 with locks := t1 })
  | .error _ => (.ok (), g1)

/-- AISingletonGuard.cleanup: same body as release (memory delete before
the try, database delete inside it). -/
def guardCleanup (err : Bool) (mid : String) (g : GuardState) :
    Except DbError Unit × GuardState :=
  let g1 : GuardState := { g with instances := g.instances.filter (fun k => k != mid) }
  match dbDeleteLock err g1.locks mid with
  | .ok t1 => (.ok (), { g1 with locks := t1 })
  | .error _ => (.ok (), g1)

/-! ### The triggerAI admission path (procedures.ts) -/

/-- Caller-visible outcome of the triggerAI mutation, one constructor
per exit of the source procedure. -/
inductive TriggerOutcome where
  /-- CONFLICT: AI is already active (in-memory isLocked check). -/
  | conflictMemory
  /-- CONFLICT: AI is already connected (getConnectionState found a row). -/
  | conflictExisting
  /-- NOT_FOUND: meeting not found. -/
  | notFoundMeeting
  /-- NOT_FOUND: agent not found. -/
  | notFoundAgent
  /-- CONFLICT: checkAndLock failed. -/
  | conflictGuard
  /-- CONFLICT: agent already among the call participants. -/
  | conflictAgentInCall
  /-- INTERNAL_SERVER_ERROR: the OpenAI connection could not be made. -/
  | connectFailed
  /-- Success: AI agent connected, connection marked completed. -/
  | connected
deriving Repr, DecidableEq

/-- Environment of one triggerAI invocation: which external lookups
succeed and which database calls throw. -/
structure TriggerEnv where
  meetingExists : Bool
  agentExists : Bool
  agentAlreadyInCall : Bool
  callStateErr : Bool
  connectSucceeds : Bool
  getErr : Bool
  guardSelErr : Bool
  insErr : Bool
  cleanupErr : Bool
  updErr : Bool
deriving Repr, DecidableEq

/-- Environment in which every external call succeeds and no database
call throws. -/
def envOk : TriggerEnv :=
  { meetingExists := true, agentExists := true, agentAlreadyInCall := false,
    callStateErr := false, connectSucceeds := true, getErr := false,
    guardSelErr := false, insErr := false, cleanupErr := false, updErr := false }

/-- The catch block of triggerAI (lines 540-550): on any error thrown
inside the main try it always runs cleanupConnection and then
AISingletonGuard.release before rethrowing. -/
def triggerCatch (env : TriggerEnv) (mid : String) (g : GuardState) : GuardState :=
  let t1 := (cleanupConnection env.cleanupErr mid g.locks).snd
  (guardRelease env.cleanupErr mid { g with locks := t1 }).snd

/-- The triggerAI mutation (procedures.ts lines 245-560), restricted to
its admission-control effects. Steps, as in the source: the in-memory
isLocked check and the getConnectionState check happen before the try
block (their CONFLICT throws run no cleanup); inside the try, missing
meeting or agent deletes the lock row and throws NOT_FOUND, then
checkAndLock acquires the guard, the call-state duplicate check may
abort, the OpenAI connect may fail, and on success
markConnectionCompleted is run. Every throw from inside the try also
runs the catch cleanup (cleanupConnection plus guardRelease). The
recentAttempts rate map is returned untouched: the procedure never
calls checkRateLimit or markConnectionInProgress. -/
def triggerAI (now : Int) (env : TriggerEnv) (mid agentId : String)
    (rm : RateMap) (g : GuardState) : TriggerOutcome × RateMap × GuardState :=
  if isLocked g mid then (.conflictMemory, rm, g)
  else
    match getConnectionState env.getErr g.locks mid with
    | some _ => (.conflictExisting, rm, g)
    | none =>
      if !env.meetingExists then
        let t1 := (cleanupConnection env.cleanupErr mid g.locks).snd
        (.notFoundMeeting, rm, triggerCatch env mid { g with locks := t1 })
      else if !env.agentExists then
        let t1 := (cleanupConnection env.cleanupErr mid g.locks).snd
        (.notFoundAgent, rm, triggerCatch env mid { g with locks := t1 })
      else
        match checkAndLock now env.guardSelErr env.insErr mid agentId g with
        | (false, g1) => (.conflictGuard, rm, triggerCatch env mid g1)
        | (true, g1) =>
          if !env.callStateErr && env.agentAlreadyInCall then
            let t2 := (cleanupConnection env.cleanupErr mid g1.locks).snd
            (.conflictAgentInCall, rm, triggerCatch env mid { g1 with locks := t2 })
          else if !env.connectSucceeds then
            let t2 := (cleanupConnection env.cleanupErr mid g1.locks).snd
            (.connectFailed, rm, triggerCatch env mid { g1 with locks := t2 })
          else
            let t2 := (markConnectionCompleted now env.updErr mid g1.locks).snd
            (.connected, rm, { g1 with locks := t2 })

/-- The call.session_ended branch of the webhook handler
(src/app/api/test-chat/route.ts): it calls cleanupConnection for the
meeting and nothing else that touches admission state; in particular it
does not clear the in-memory instances entry of AISingletonGuard. -/
def sessionEndedRelease (err : Bool) (mid : String) (g : GuardState) : GuardState :=
  { g with locks := (cleanupConnection err mid g.locks).snd }

/-! ### Helper lemmas -/

theorem find?_filter_keeps_first {α : Type} (l : List α) (p q : α → Bool) (e : α)
    (h : l.find? q = some e) (hp : p e = true) : (l.filter p).find? q = some e := by
  induction l with
  | nil => simp [List.find?] at h
  | cons a l ih =>
    rw [List.find?_cons] at h
    cases hq : q a with
    | true =>
      rw [hq] at h
      cases h
      rw [List.filter_cons, if_pos hp, List.find?_cons, hq]
    | false =>
      rw [hq] at h
      rw [List.filter_cons]
      cases hpa : p a with
      | true => rw [if_pos rfl, List.find?_cons, hq]; exact ih h
      | false => rw [if_neg (by simp)]; exact ih h

theorem filter_self_idem {α : Type} (p : α → Bool) (l : List α) :
    (l.filter p).filter p = l.filter p := by
  induction l with
  | nil => rfl
  | cons a l ih =>
    rw [List.filter_cons]
    cases h : p a with
    | true => rw [if_pos rfl, List.filter_cons, if_pos h, ih]
    | false => rw [if_neg (by simp), ih]

theorem filter_length_split {α : Type} (p : α → Bool) (l : List α) :
    (l.filter p).length + (l.filter (fun a => !p a)).length = l.length := by
  induction l with
  | nil => rfl
  | cons a l ih =>
    rw [List.filter_cons, List.filter_cons]
    cases h : p a <;> simp [List.length_cons, ← ih] <;> omega

theorem lookupLock_append_self (t : LockTable) (r : AIConnectionLock)
    (h : lookupLock t r.meetingId = none) :
    lookupLock (t ++ [r]) r.meetingId = some r := by
  induction t with
  | nil => simp [lookupLock, List.find?]
  | cons a t ih =>
    rw [lookupLock, List.cons_append, List.find?_cons]
    rw [lookupLock, List.find?_cons] at h
    cases ha : (a.meetingId == r.meetingId) with
    | true => rw [ha] at h; cases h
    | false => rw [ha] at h; exact ih h

theorem filter_noop_of_lookup_none (t : LockTable) (mid : String)
    (h : lookupLock t mid = none) :
    t.filter (fun r => r.meetingId != mid) = t := by
  induction t with
  | nil => rfl
  | cons a t ih =>
    rw [lookupLock, List.find?_cons] at h
    cases ha : (a.meetingId == mid) with
    | true => rw [ha] at h; cases h
    | false =>
      rw [ha] at h
      rw [List.filter_cons, if_pos (by simp [bne, ha])]
      rw [ih h]

theorem find?_map_overwrite (m : RateMap) (mid : String) (v : Int)
    (h : (m.find? (fun e => e.fst == mid)).isSome = true) :
    (m.map (fun e => if e.fst == mid then (mid, v) else e)).find?
        (fun e => e.fst == mid) = some (mid, v) := by
  induction m with
  | nil => simp [List.find?] at h
  | cons a m ih =>
    rw [List.find?_cons] at h
    cases ha : (a.fst == mid) with
    | true =>
      simp only [List.map_cons]
      rw [if_pos ha, List.find?_cons]
      simp
    | false =>
      rw [ha] at h
      simp only [List.map_cons]
      rw [if_neg (by simp [ha]), List.find?_cons, ha]
      exact ih h

theorem find?_append_single (m : RateMap) (mid : String) (v : Int)
    (h : (m.find? (fun e => e.fst == mid)).isSome = false) :
    (m ++ [(mid, v)]).find? (fun e => e.fst == mid) = some (mid, v) := by
  induction m with
  | nil => simp [List.find?]
  | cons a m ih =>
    rw [List.find?_cons] at h
    cases ha : (a.fst == mid) with
    | true => rw [ha] at h; simp at h
    | false =>
      rw [ha] at h
      rw [List.cons_append, List.find?_cons, ha]
      exact ih h

theorem rateSet_find?_self (m : RateMap) (mid : String) (v : Int) :
    (rateSet m mid v).find? (fun e => e.fst == mid) = some (mid, v) := by
  rw [rateSet]
  cases hf : (m.find? (fun e => e.fst == mid)).isSome with
  | true =>
    rw [if_pos rfl]
    exact find?_map_overwrite m mid v hf
  | false =>
    rw [if_neg (by simp)]
    exact find?_append_single m mid v hf

theorem checkRateLimit_of_none (now : Int) (m : RateMap) (mid : String)
    (hr : rateGet m mid = none) :
    checkRateLimit now m mid =
      (true, (rateSet m mid now).filter (fun e => !decide (now - e.snd > 30000))) := by
  simp [checkRateLimit, hr]

theorem checkRateLimit_of_recent (now t0 : Int) (m : RateMap) (mid : String)
    (hr : rateGet m mid = some t0) (ht : t0 ≠ 0) (hlt : now - t0 < 5000) :
    checkRateLimit now m mid = (false, m) := by
  simp [checkRateLimit, hr, ht, hlt]

theorem checkRateLimit_of_stale (now t0 : Int) (m : RateMap) (mid : String)
    (hr : rateGet m mid = some t0) (h : t0 = 0 ∨ 5000 ≤ now - t0) :
    checkRateLimit now m mid =
      (true, (rateSet m mid now).filter (fun e => !decide (now - e.snd > 30000))) := by
  rcases h with h0 | hge
  · simp [checkRateLimit, hr, h0]
  · have hnlt : ¬(now - t0 < 5000) := by omega
    simp [checkRateLimit, hr, hnlt]

theorem checkRateLimit_denied_eq (now : Int) (m : RateMap) (mid : String)
    (h : (checkRateLimit now m mid).fst = false) :
    checkRateLimit now m mid = (false, m) := by
  rcases hr : rateGet m mid with _ | t0
  · rw [checkRateLimit_of_none now m mid hr] at h
    simp at h
  · by_cases ht : t0 = 0
    · rw [checkRateLimit_of_stale now t0 m mid hr (Or.inl ht)] at h
      simp at h
    · by_cases hlt : now - t0 < 5000
      · exact checkRateLimit_of_recent now t0 m mid hr ht hlt
      · rw [checkRateLimit_of_stale now t0 m mid hr (Or.inr (by omega))] at h
        simp at h

theorem checkRateLimit_allowed_eq (now : Int) (m : RateMap) (mid : String)
    (h : (checkRateLimit now m mid).fst = true) :
    checkRateLimit now m mid =
      (true, (rateSet m mid now).filter (fun e => !decide (now - e.snd > 30000))) := by
  rcases hr : rateGet m mid with _ | t0
  · exact checkRateLimit_of_none now m mid hr
  · by_cases ht : t0 = 0
    · exact checkRateLimit_of_stale now t0 m mid hr (Or.inl ht)
    · by_cases hlt : now - t0 < 5000
      · rw [checkRateLimit_of_recent now t0 m mid hr ht hlt] at h
        simp at h
      · exact checkRateLimit_of_stale now t0 m mid hr (Or.inr (by omega))

theorem rateGet_after_allow (now : Int) (m : RateMap) (mid : String) :
    rateGet ((rateSet m mid now).filter (fun e => !decide (now - e.snd > 30000)))
      mid = some now := by
  rw [rateGet, find?_filter_keeps_first _ _ _ (mid, now)
    (rateSet_find?_self m mid now) (by norm_num)]
  rfl

/-! ### Claim theorems -/

/-- Claim C6: the rate limiter records a last-attempt timestamp per key
in local memory; it returns false when the recorded attempt for the key
is younger than 5000 ms (for the positive timestamps Date.now produces),
leaving the map unchanged; otherwise it records the current time for the
key and returns true; and on the recording path every entry older than
the 30000 ms horizon is purged. -/
theorem checkRateLimit_contract (now t0 : Int) (rm : RateMap) (mid : String) :
    (rateGet rm mid = some t0 → 0 < t0 → now - t0 < 5000 →
      checkRateLimit now rm mid = (false, rm))
    ∧ (rateGet rm mid = none ∨ (rateGet rm mid = some t0 ∧ 5000 ≤ now - t0) →
      (checkRateLimit now rm mid).fst = true
      ∧ rateGet (checkRateLimit now rm mid).snd mid = some now)
    ∧ ((checkRateLimit now rm mid).fst = true →
      ∀ e ∈ (checkRateLimit now rm mid).snd, now - e.snd ≤ 30000) := by
  refine ⟨?_, ?_, ?_⟩
  · intro hr ht hlt
    exact checkRateLimit_of_recent now t0 rm mid hr (by omega) hlt
  · intro h
    have heq : checkRateLimit now rm mid =
        (true, (rateSet rm mid now).filter (fun e => !decide (now - e.snd > 30000))) := by
      rcases h with hr | ⟨hr, hge⟩
      · exact checkRateLimit_of_none now rm mid hr
      · exact checkRateLimit_of_stale now t0 rm mid hr (Or.inr hge)
    rw [heq]
    exact ⟨rfl, rateGet_after_allow now rm mid⟩
  · intro hfst e he
    rw [checkRateLimit_allowed_eq now rm mid hfst] at he
    have := (List.mem_filter.mp he).2
    simp at this
    omega

/-- Witness for C6 at concrete inputs: a second attempt 1000 ms after a
recorded one is denied with the map unchanged, and an attempt 5000 ms
later is allowed and records the new time. -/
theorem checkRateLimit_contract_witness :
    checkRateLimit 2000 [("m1", 1000)] "m1" = (false, [("m1", 1000)])
    ∧ (checkRateLimit 6000 [("m1", 1000)] "m1").fst = true
    ∧ rateGet (checkRateLimit 6000 [("m1", 1000)] "m1").snd "m1" = some 6000 := by
  refine ⟨(checkRateLimit_contract 2000 1000 [("m1", 1000)] "m1").1
      (by decide) (by decide) (by decide), ?_, ?_⟩
  · exact ((checkRateLimit_contract 6000 1000 [("m1", 1000)] "m1").2.1
      (Or.inr ⟨by decide, by decide⟩)).1
  · exact ((checkRateLimit_contract 6000 1000 [("m1", 1000)] "m1").2.1
      (Or.inr ⟨by decide, by decide⟩)).2

/-- Claim C9 (implicit): a denied rate-limiter call does not refresh the
recorded last-attempt timestamp — the map is returned unchanged — so
once 5000 ms have elapsed since the recorded attempt for a key, a call
for that key returns true no matter how many denied calls happened in
between (each of which left the map untouched). -/
theorem checkRateLimit_denied_no_refresh (now now2 t0 : Int) (rm : RateMap)
    (mid : String) :
    ((checkRateLimit now rm mid).fst = false →
      (checkRateLimit now rm mid).snd = rm)
    ∧ (rateGet rm mid = some t0 → 5000 ≤ now2 - t0 →
      (checkRateLimit now2 rm mid).fst = true) := by
  constructor
  · intro h
    rw [checkRateLimit_denied_eq now rm mid h]
  · intro hr hge
    rw [checkRateLimit_of_stale now2 t0 rm mid hr (Or.inr hge)]

/-- Witness for C9 at concrete inputs: a denied call 1000 ms after the
recorded attempt leaves the map unchanged, and a call 5000 ms after the
recorded attempt is allowed. -/
theorem checkRateLimit_denied_no_refresh_witness :
    (checkRateLimit 2000 [("m1", 1000)] "m1").snd = [("m1", 1000)]
    ∧ (checkRateLimit 6000 [("m1", 1000)] "m1").fst = true := by
  constructor
  · exact (checkRateLimit_denied_no_refresh 2000 6000 1000 [("m1", 1000)] "m1").1
      (by decide)
  · exact (checkRateLimit_denied_no_refresh 2000 6000 1000 [("m1", 1000)] "m1").2
      (by decide) (by decide)

/-- Claim C7: release is idempotent — deleting the ticket for a key twice
leaves the same store as deleting it once, deleting for a key with no
ticket changes nothing, both calls report success (the source resolves
normally in every case), and the same holds for the singleton-guard
release. -/
theorem release_idempotent (mid : String) (t : LockTable) (g : GuardState) :
    (cleanupConnection false mid (cleanupConnection false mid t).snd).snd
        = (cleanupConnection false mid t).snd
    ∧ (lookupLock t mid = none → (cleanupConnection false mid t).snd = t)
    ∧ (∀ err t2, (cleanupConnection err mid t2).fst = Except.ok ())
    ∧ (guardRelease false mid (guardRelease false mid g).snd).snd
        = (guardRelease false mid g).snd
    ∧ (∀ err g2, (guardRelease err mid g2).fst = Except.ok ()) := by
  refine ⟨?_, ?_, ?_, ?_, ?_⟩
  · simp [cleanupConnection, dbDeleteLock, filter_self_idem]
  · intro h
    simp [cleanupConnection, dbDeleteLock, filter_noop_of_lookup_none t mid h]
  · intro err t2
    cases err <;> simp [cleanupConnection, dbDeleteLock]
  · simp [guardRelease, dbDeleteLock, filter_self_idem]
  · intro err g2
    cases err <;> simp [guardRelease, dbDeleteLock]

/-- Witness for C7 at concrete inputs: releasing a key absent from an
empty store changes nothing and reports success, also when the store
call throws. -/
theorem release_idempotent_witness :
    (cleanupConnection false "m1" []).snd = ([] : LockTable)
    ∧ (cleanupConnection true "m1" []).fst = Except.ok ()
    ∧ (guardRelease true "m1" ⟨[], []⟩).fst = Except.ok () := by
  refine ⟨(release_idempotent "m1" [] ⟨[], []⟩).2.1 rfl,
    (release_idempotent "m1" [] ⟨[], []⟩).2.2.1 true [],
    (release_idempotent "m1" [] ⟨[], []⟩).2.2.2.2 true ⟨[], []⟩⟩

/-- Claim C10 (implicit): the mark-completed, release and sweep
operations of the tracker, and the guard release and cleanup, never
surface an error — for every storage outcome the caller-visible result
is success, so a failed teardown is indistinguishable from a successful
one. -/
theorem teardown_never_throws (now : Int) (err : Bool) (mid : String)
    (t : LockTable) (g : GuardState) :
    (markConnectionCompleted now err mid t).fst = Except.ok ()
    ∧ (cleanupConnection err mid t).fst = Except.ok ()
    ∧ (cleanupOldConnections now err t).fst = Except.ok ()
    ∧ (guardRelease err mid g).fst = Except.ok ()
    ∧ (guardCleanup err mid g).fst = Except.ok () := by
  cases err <;>
    simp [markConnectionCompleted, cleanupConnection, cleanupOldConnections,
      guardRelease, guardCleanup, dbUpdateLockCompleted, dbDeleteLock,
      dbDeleteOldLocks]

theorem dbInsertLock_ok (err : Bool) (t t1 : LockTable) (r : AIConnectionLock)
    (h : dbInsertLock err t r = .ok t1) :
    lookupLock t r.meetingId = none ∧ t1 = t ++ [r] := by
  rw [dbInsertLock] at h
  cases err
  · rw [if_neg (by simp)] at h
    cases hs : (lookupLock t r.meetingId).isSome
    · rw [if_neg (by simp [hs])] at h
      injection h with h
      exact ⟨Option.not_isSome_iff_eq_none.mp (by simp [hs]), h.symm⟩
    · rw [if_pos hs] at h
      cases h
  · rw [if_pos rfl] at h
    cases h

theorem markConnectionInProgress_false_of_present (now : Int) (err : Bool)
    (mid aid : String) (rm : RateMap) (t : LockTable) (r : AIConnectionLock)
    (h : lookupLock t mid = some r) :
    (markConnectionInProgress now err mid aid rm t).fst = false := by
  rcases hc : checkRateLimit now rm mid with ⟨b, rm1⟩
  cases b
  · simp [markConnectionInProgress, hc]
  · cases err <;> simp [markConnectionInProgress, hc, dbInsertLock, h]

/-- Claim C1: the acquire of the tracker is a single conditional insert
whose uniqueness is enforced by the store (the primary key on
meetingId): a true result means no ticket existed and one now exists in
state InProgress; under an allowing rate limiter and a healthy store the
result is true exactly when no ticket existed; two successive acquire
attempts for the same key never both return true, whatever the
timestamps, owners and error conditions of the second attempt; and a
present ticket also makes the singleton-guard acquire fail. -/
theorem tryAcquire_at_most_one (now1 now2 : Int) (err1 err2 selErr insErr : Bool)
    (mid a1 a2 a3 : String) (rm : RateMap) (t : LockTable) (g : GuardState)
    (r : AIConnectionLock) :
    ((markConnectionInProgress now1 err1 mid a1 rm t).fst = true →
      lookupLock t mid = none
      ∧ lookupLock (markConnectionInProgress now1 err1 mid a1 rm t).snd.snd mid
          = some ⟨mid, a1, true, now1, now1⟩)
    ∧ ((checkRateLimit now1 rm mid).fst = true → err1 = false →
      ((markConnectionInProgress now1 err1 mid a1 rm t).fst = true
        ↔ lookupLock t mid = none))
    ∧ (¬((markConnectionInProgress now1 err1 mid a1 rm t).fst = true
        ∧ (markConnectionInProgress now2 err2 mid a2
            (markConnectionInProgress now1 err1 mid a1 rm t).snd.fst
            (markConnectionInProgress now1 err1 mid a1 rm t).snd.snd).fst = true))
    ∧ (lookupLock g.locks mid = some r →
      (checkAndLock now2 selErr insErr mid a3 g).fst = false) := by
  have key : (markConnectionInProgress now1 err1 mid a1 rm t).fst = true →
      lookupLock t mid = none
      ∧ lookupLock (markConnectionInProgress now1 err1 mid a1 rm t).snd.snd mid
          = some ⟨mid, a1, true, now1, now1⟩ := by
    intro htrue
    rcases hc : checkRateLimit now1 rm mid with ⟨b, rm1⟩
    cases b
    · simp [markConnectionInProgress, hc] at htrue
    · cases hins : dbInsertLock err1 t ⟨mid, a1, true, now1, now1⟩ with
      | error e => simp [markConnectionInProgress, hc, hins] at htrue
      | ok t1 =>
        have hok := dbInsertLock_ok err1 t t1 ⟨mid, a1, true, now1, now1⟩ hins
        simp only [markConnectionInProgress, hc, hins]
        refine ⟨hok.1, ?_⟩
        rw [hok.2]
        exact lookupLock_append_self t _ hok.1
  refine ⟨key, ?_, ?_, ?_⟩
  · intro hrate herr
    subst herr
    constructor
    · intro htrue
      exact (key htrue).1
    · intro hnone
      have hc1 := checkRateLimit_allowed_eq now1 rm mid hrate
      simp [markConnectionInProgress, hc1, dbInsertLock, hnone]
  · rintro ⟨h1, h2⟩
    have h3 := (key h1).2
    have h4 := markConnectionInProgress_false_of_present now2 err2 mid a2
      (markConnectionInProgress now1 err1 mid a1 rm t).snd.fst
      (markConnectionInProgress now1 err1 mid a1 rm t).snd.snd
      ⟨mid, a1, true, now1, now1⟩ h3
    rw [h2] at h4
    exact Bool.noConfusion h4
  · intro h
    rw [checkAndLock]
    cases hl : isLocked g mid
    · rw [if_neg (by simp [hl])]
      cases selErr <;> simp [dbSelectLock, h]
    · rw [if_pos rfl]

/-- Witness for C1 at concrete inputs: a first acquire on an empty store
succeeds and creates the InProgress ticket, and the guard acquire fails
when a ticket is present. -/
theorem tryAcquire_at_most_one_witness :
    lookupLock ([] : LockTable) "m1" = none
    ∧ lookupLock (markConnectionInProgress 0 false "m1" "a1" [] []).snd.snd "m1"
        = some ⟨"m1", "a1", true, 0, 0⟩
    ∧ ((markConnectionInProgress 0 false "m1" "a1" [] []).fst = true
        ↔ lookupLock ([] : LockTable) "m1" = none)
    ∧ (checkAndLock 0 false false "m1" "a2"
        ⟨[], [⟨"m1", "a0", true, 0, 0⟩]⟩).fst = false := by
  have h := tryAcquire_at_most_one 0 0 false false false false "m1" "a1" "a2" "a2"
    [] [] ⟨[], [⟨"m1", "a0", true, 0, 0⟩]⟩ ⟨"m1", "a0", true, 0, 0⟩
  exact ⟨(h.1 (by decide)).1, (h.1 (by decide)).2,
    h.2.1 (by decide) rfl, h.2.2.2 (by decide)⟩

theorem lookupLock_update_completed (t : LockTable) (mid : String) (now : Int)
    (r : AIConnectionLock) (h : lookupLock t mid = some r) :
    lookupLock (t.map fun x =>
        if x.meetingId == mid then { x with isInProgress := false, updatedAt := now }
        else x) mid = some { r with isInProgress := false, updatedAt := now } := by
  induction t with
  | nil => simp [lookupLock, List.find?] at h
  | cons a t ih =>
    rw [lookupLock, List.find?_cons] at h
    cases ha : (a.meetingId == mid) with
    | true =>
      rw [ha] at h
      injection h with h
      subst h
      simp only [List.map_cons]
      rw [if_pos ha]
      simp [lookupLock, List.find?_cons, ha]
    | false =>
      rw [ha] at h
      simp only [List.map_cons]
      rw [if_neg (by simp [ha])]
      rw [lookupLock, List.find?_cons]
      rw [ha]
      exact ih h

/-- Claim C4: a ticket present in the store — whatever its state — makes
the admission path return an already-admitted conflict (the in-memory
conflict or the existing-connection conflict, both CONFLICT denials),
provided the read itself does not fail; and confirming an admission
keeps the ticket present (now Completed), so the same denial applies
until an explicit release removes the row. -/
theorem present_ticket_blocks (now now2 : Int) (env : TriggerEnv)
    (mid aid : String) (rm : RateMap) (g : GuardState) (r : AIConnectionLock)
    (hget : env.getErr = false) (hrow : lookupLock g.locks mid = some r) :
    ((triggerAI now env mid aid rm g).fst = TriggerOutcome.conflictMemory
      ∨ (triggerAI now env mid aid rm g).fst = TriggerOutcome.conflictExisting)
    ∧ lookupLock (markConnectionCompleted now2 false mid g.locks).snd mid
        = some { r with isInProgress := false, updatedAt := now2 } := by
  constructor
  · cases hl : isLocked g mid
    · right
      simp [triggerAI, hl, getConnectionState, dbSelectLock, hget, hrow]
    · left
      simp [triggerAI, hl]
  · simp only [markConnectionCompleted, dbUpdateLockCompleted, if_neg Bool.false_ne_true]
    exact lookupLock_update_completed g.locks mid now2 r hrow

/-- Witness for C4 at concrete inputs: a Completed ticket (isInProgress
false) still produces a conflict denial, and confirming keeps the row. -/
theorem present_ticket_blocks_witness :
    ((triggerAI 0 envOk "m1" "aX" [] ⟨[], [⟨"m1", "a0", false, 0, 0⟩]⟩).fst
        = TriggerOutcome.conflictMemory
      ∨ (triggerAI 0 envOk "m1" "aX" [] ⟨[], [⟨"m1", "a0", false, 0, 0⟩]⟩).fst
        = TriggerOutcome.conflictExisting)
    ∧ lookupLock (markConnectionCompleted 5 false "m1"
        [⟨"m1", "a0", false, 0, 0⟩]).snd "m1"
        = some ⟨"m1", "a0", false, 0, 5⟩ :=
  present_ticket_blocks 0 5 envOk "m1" "aX" [] ⟨[], [⟨"m1", "a0", false, 0, 0⟩]⟩
    ⟨"m1", "a0", false, 0, 0⟩ rfl (by decide)

/-- Counterexample to claim C2: when the read of the current ticket
fails, the admission attempt is not treated as failed — with an
erroring read the tracker reports absence (even while a ticket exists
in the store), and on an empty store an admission whose read errored
proceeds all the way to a grant instead of any denial; no
store-unavailable denial exists among the outcomes. -/
theorem fail_closed_counterexample :
    getConnectionState true [⟨"m1", "a0", true, 0, 0⟩] "m1" = none
    ∧ (triggerAI 0
        { envOk with getErr := true } "m1" "agent-1" [] ⟨[], []⟩).fst
        = TriggerOutcome.connected := by
  constructor
  · rfl
  · rfl

/-- Amended C2: on a failed read, getConnectionState reports the ticket
absent (its catch returns null) and the admission path proceeds past
the check; the path fails closed only at the guard acquire step, where
any store error makes checkAndLock return false — surfaced as the
generic conflict denial, not as a distinguishable store-unavailable
result. -/
theorem store_error_handling_actual (now : Int) (t : LockTable)
    (mid aid : String) (g : GuardState) (selErr insErr : Bool)
    (h : selErr = true ∨ insErr = true) :
    getConnectionState true t mid = none
    ∧ (checkAndLock now selErr insErr mid aid g).fst = false := by
  constructor
  · rfl
  · rcases h with h | h <;> subst h
    · rw [checkAndLock]
      cases hl : isLocked g mid
      · rw [if_neg (by simp)]
        simp [dbSelectLock]
      · rw [if_pos rfl]
    · rw [checkAndLock]
      cases hl : isLocked g mid
      · rw [if_neg (by simp)]
        cases selErr
        · rcases hlk : lookupLock g.locks mid with _ | r2
          · simp [dbSelectLock, hlk, dbInsertLock]
          · simp [dbSelectLock, hlk]
        · simp [dbSelectLock]
      · rw [if_pos rfl]

/-- Witness for amended C2 at concrete inputs: a failing read reports
absence, and a guard acquire whose select fails returns false. -/
theorem store_error_handling_actual_witness :
    getConnectionState true [] "m1" = none
    ∧ (checkAndLock 0 true false "m1" "a1" ⟨[], []⟩).fst = false :=
  store_error_handling_actual 0 [] "m1" "a1" ⟨[], []⟩ true false (Or.inl rfl)

/-- Counterexample to claim C3: after a granted admission, its
confirmation, and the release performed by the session-end event (which
deletes only the database row), a repeated admission request handled by
the same process instance is denied by the stale in-memory guard entry
instead of being granted. -/
theorem readmission_counterexample :
    (triggerAI 0 envOk "m1" "agent-1" [] ⟨[], []⟩).fst = TriggerOutcome.connected
    ∧ (triggerAI 10000 envOk "m1" "agent-1" []
        (sessionEndedRelease false "m1"
          (triggerAI 0 envOk "m1" "agent-1" [] ⟨[], []⟩).snd.snd)).fst
        = TriggerOutcome.conflictMemory := by
  constructor
  · rfl
  · rfl

/-- Amended C3: the grant-confirm-release sequence leaves the Lock Store
itself fully re-admittable — after the session-end release a request
handled by a process instance without the stale in-memory entry is
granted again, and so is any request after the full guard release,
which clears both the memory entry and the row; only a repeat on the
same instance after the session-end path stays blocked. -/
theorem readmission_after_release_amended (mid aid : String) (n1 n2 n3 : Int) :
    (triggerAI n1 envOk mid aid [] ⟨[], []⟩).fst = TriggerOutcome.connected
    ∧ (triggerAI n2 envOk mid aid []
        ⟨[], (sessionEndedRelease false mid
          (triggerAI n1 envOk mid aid [] ⟨[], []⟩).snd.snd).locks⟩).fst
        = TriggerOutcome.connected
    ∧ (triggerAI n3 envOk mid aid []
        (guardRelease false mid
          (triggerAI n1 envOk mid aid [] ⟨[], []⟩).snd.snd).snd).fst
        = TriggerOutcome.connected := by
  have hrun : ∀ n : Int, triggerAI n envOk mid aid [] ⟨[], []⟩
      = (.connected, [], ⟨[mid], [⟨mid, aid, false, n, n⟩]⟩) := by
    intro n
    simp [triggerAI, envOk, isLocked, getConnectionState, dbSelectLock, lookupLock,
      checkAndLock, dbInsertLock, markConnectionCompleted, dbUpdateLockCompleted]
  refine ⟨by rw [hrun n1], ?_, ?_⟩
  · rw [hrun n1]
    simp [sessionEndedRelease, cleanupConnection, dbDeleteLock, hrun n2]
  · rw [hrun n1]
    simp [guardRelease, dbDeleteLock, hrun n3]

theorem triggerAI_preserves_rateMap (now : Int) (env : TriggerEnv)
    (mid aid : String) (rm : RateMap) (g : GuardState) :
    (triggerAI now env mid aid rm g).snd.fst = rm := by
  rw [triggerAI]
  repeat' split
  all_goals rfl

/-- Counterexample to claim C5: an admission request in a rate-limiter
state that denies the key (an attempt recorded 1000 ms earlier) is
nonetheless granted and writes a ticket into the Lock Store — the
admission path consults the store without consulting the rate
limiter. -/
theorem rate_limiter_not_consulted_counterexample :
    (checkRateLimit 2000 [("m1", 1000)] "m1").fst = false
    ∧ (triggerAI 2000 envOk "m1" "agent-1" [("m1", 1000)] ⟨[], []⟩).fst
        = TriggerOutcome.connected
    ∧ (triggerAI 2000 envOk "m1" "agent-1" [("m1", 1000)] ⟨[], []⟩).snd.snd.locks
        ≠ [] := by
  refine ⟨rfl, rfl, ?_⟩
  simp [triggerAI, envOk, isLocked, getConnectionState, dbSelectLock, lookupLock,
    checkAndLock, dbInsertLock, markConnectionCompleted, dbUpdateLockCompleted]

/-- Amended C5: rate limiting is the first step of
markConnectionInProgress — a denying limiter makes it return false with
the store untouched and never consulted (the result is the same for a
healthy and for an erroring store) — but the triggerAI admission path
never consults the rate limiter at all: it returns the rate map
unchanged in every branch while reading and writing the Lock Store. -/
theorem rate_limit_first_step_actual (now : Int) (err : Bool) (mid aid : String)
    (rm : RateMap) (t : LockTable)
    (h : (checkRateLimit now rm mid).fst = false) :
    markConnectionInProgress now err mid aid rm t = (false, rm, t)
    ∧ ∀ (now2 : Int) (env : TriggerEnv) (g : GuardState),
        (triggerAI now2 env mid aid rm g).snd.fst = rm := by
  constructor
  · have hc := checkRateLimit_denied_eq now rm mid h
    simp [markConnectionInProgress, hc]
  · intro now2 env g
    exact triggerAI_preserves_rateMap now2 env mid aid rm g

/-- Witness for amended C5 at concrete inputs: with a denying limiter
state, markConnectionInProgress returns false and leaves the store
untouched even when the store would error, and triggerAI passes the
rate map through unchanged. -/
theorem rate_limit_first_step_actual_witness :
    markConnectionInProgress 2000 true "m1" "a1" [("m1", 1000)] []
        = (false, [("m1", 1000)], [])
    ∧ (triggerAI 0 envOk "m1" "a1" [("m1", 1000)] ⟨[], []⟩).snd.fst
        = [("m1", 1000)] :=
  ⟨(rate_limit_first_step_actual 2000 true "m1" "a1" [("m1", 1000)] []
      (by decide)).1,
   (rate_limit_first_step_actual 2000 true "m1" "a1" [("m1", 1000)] []
      (by decide)).2 0 envOk ⟨[], []⟩⟩

/-- Counterexample to claim C8: the sweep of the code has no maxAge
parameter and returns no count — it deletes by a fixed five-minute age.
For maxAge of 600000 ms, the specified sweepExpired keeps a ticket aged
400000 ms (and reports zero removed), while the code deletes it. -/
theorem sweep_counterexample :
    (cleanupOldConnections 400000 false [⟨"m1", "a1", false, 0, 0⟩]).snd = []
    ∧ (sweepExpired 400000 600000 [⟨"m1", "a1", false, 0, 0⟩]).snd
        = [⟨"m1", "a1", false, 0, 0⟩]
    ∧ (sweepExpired 400000 600000 [⟨"m1", "a1", false, 0, 0⟩]).fst = 0 := by
  refine ⟨rfl, rfl, rfl⟩

/-- Amended C8: the sweep deletes exactly the tickets whose creation
timestamp is older than a fixed five minutes (300000 ms), regardless of
their state; the number removed is computed only for a log line and not
returned; with maxAge fixed at 300000 the code agrees with the
specified sweepExpired, whose count accounts for every removed row. -/
theorem sweep_fixed_age_actual (now : Int) (t : LockTable) :
    (cleanupOldConnections now false t).snd = (sweepExpired now 300000 t).snd
    ∧ (∀ r ∈ (cleanupOldConnections now false t).snd,
        ¬(r.createdAt < now - 300000))
    ∧ (∀ r ∈ t, r.createdAt < now - 300000 →
        r ∉ (cleanupOldConnections now false t).snd)
    ∧ (cleanupOldConnections now false t).snd.length
        + (sweepExpired now 300000 t).fst = t.length := by
  refine ⟨?_, ?_, ?_, ?_⟩
  · simp [cleanupOldConnections, dbDeleteOldLocks, sweepExpired]
  · intro r hr
    simp only [cleanupOldConnections, dbDeleteOldLocks,
      if_neg Bool.false_ne_true] at hr
    have := (List.mem_filter.mp hr).2
    simpa using this
  · intro r _hrt hlt hmem
    simp only [cleanupOldConnections, dbDeleteOldLocks,
      if_neg Bool.false_ne_true] at hmem
    have := (List.mem_filter.mp hmem).2
    simp at this
    omega
  · have hs := filter_length_split
      (fun r : AIConnectionLock => decide (r.createdAt < now - 300000)) t
    simp only [cleanupOldConnections, dbDeleteOldLocks, sweepExpired,
      if_neg Bool.false_ne_true]
    omega

/-- Witness for amended C8 at concrete inputs: a six-minute-old
Completed ticket is removed by the sweep and counted. -/
theorem sweep_fixed_age_actual_witness :
    (cleanupOldConnections 400000 false [⟨"m1", "a1", false, 0, 0⟩]).snd
        = (sweepExpired 400000 300000 [⟨"m1", "a1", false, 0, 0⟩]).snd
    ∧ (⟨"m1", "a1", false, 0, 0⟩ : AIConnectionLock)
        ∉ (cleanupOldConnections 400000 false [⟨"m1", "a1", false, 0, 0⟩]).snd :=
  ⟨(sweep_fixed_age_actual 400000 [⟨"m1", "a1", false, 0, 0⟩]).1,
   (sweep_fixed_age_actual 400000 [⟨"m1", "a1", false, 0, 0⟩]).2.2.1
      ⟨"m1", "a1", false, 0, 0⟩ (by decide) (by decide)⟩

end MeetAI
